import Mathlib

/-!
Shallow embedding of the Discogs API client core
(`custom_components/discogs_sync/api_client.py`): rate-limit state
bookkeeping, request execution, pagination, random sampling, and the
pure response-normalisation helpers.  Timestamps and currency values
are modelled as rationals; Python dictionaries are modelled as
structures whose fields are `Option`-typed exactly where the code
accesses them through `dict.get`.
-/

namespace DiscogsSync

/-- Numeric value of a list of ASCII digit characters, most significant first. -/
def natFromDigits (cs : List Char) : Nat :=
  cs.foldl (fun n c => 10 * n + (c.toNat - '0'.toNat)) 0

/-- Model of Python `int(s)` restricted to the shapes that matter here:
an optional single leading sign followed by a nonempty run of ASCII
digits parses; everything else raises, modelled as `none`. -/
def parse_py_int (s : String) : Option Int :=
  match s.data with
  | [] => none
  | '-' :: rest =>
    if rest ≠ [] ∧ rest.all Char.isDigit then some (-(natFromDigits rest : Int)) else none
  | '+' :: rest =>
    if rest ≠ [] ∧ rest.all Char.isDigit then some (natFromDigits rest : Int) else none
  | cs =>
    if cs.all Char.isDigit then some (natFromDigits cs : Int) else none

/-- The client's `rate_limit_info` dictionary. -/
structure RateLimitState where
  total : Int
  used : Int
  remaining : Int
  exceeded : Bool
  last_updated : Option ℚ
deriving DecidableEq, Repr

/-- The constructor's initial `rate_limit_info`. -/
def initRateLimitState : RateLimitState :=
  { total := 60, used := 0, remaining := 60, exceeded := false, last_updated := none }

/-- The three rate-limit response headers, each possibly absent. -/
structure RLHeaders where
  ratelimit : Option String
  ratelimit_used : Option String
  ratelimit_remaining : Option String
deriving DecidableEq, Repr

/-- Embedding of `_update_rate_limit_info`: the Python code builds the
replacement dictionary (parsing all three headers, each defaulted to
its standard string when absent) before calling `dict.update`, so a
`ValueError`/`TypeError` from any `int(...)` aborts the whole call and
leaves `rate_limit_info` untouched, `last_updated` included. -/
def update_rate_limit_info (st : RateLimitState) (h : RLHeaders) (status : Int)
    (now : ℚ) : RateLimitState :=
  match parse_py_int (h.ratelimit.getD "60"), parse_py_int (h.ratelimit_used.getD "0"),
      parse_py_int (h.ratelimit_remaining.getD "60") with
  | some t, some u, some r =>
    { total := t, used := u, remaining := r, exceeded := status == 429,
      last_updated := some now }
  | _, _, _ => st

/-- All three rate-limit headers (after the standard string defaults are
substituted for absent ones) parse as integers. -/
def headers_parseable (h : RLHeaders) : Prop :=
  (parse_py_int (h.ratelimit.getD "60")).isSome ∧
  (parse_py_int (h.ratelimit_used.getD "0")).isSome ∧
  (parse_py_int (h.ratelimit_remaining.getD "60")).isSome

instance (h : RLHeaders) : Decidable (headers_parseable h) := by
  unfold headers_parseable; infer_instance

/-- One HTTP response as `_make_request` sees it: status code, the
rate-limit headers, and the JSON body (`none` when `response.json()`
would raise). -/
structure HttpResponse (α : Type) where
  status : Int
  headers : RLHeaders
  body : Option α

/-- Outcome of `_make_request`: the returned JSON, or one of the error
kinds the call can raise. -/
inductive RequestResult (α : Type)
  | ok (val : α)
  | rateLimitExceeded
  | httpError (status : Int)
  | malformedResponse
  | transportError
deriving DecidableEq, Repr

/-- Embedding of `_make_request` as a state transition on
`RateLimitState`.  `resp = none` models a network-level failure of
`requests.get` (no headers ever seen, state untouched).  Otherwise
`_update_rate_limit_info` runs first; `raise_for_status` raises for
4xx/5xx, and the 429 handler overwrites `exceeded`/`remaining` before
re-raising. -/
def make_request {α : Type} (st : RateLimitState) :
    Option (HttpResponse α) → ℚ → RateLimitState × RequestResult α
  | none, _ => (st, .transportError)
  | some r, now =>
    let st1 := update_rate_limit_info st r.headers r.status now
    if 400 ≤ r.status ∧ r.status < 600 then
      if r.status = 429 then
        ({ st1 with exceeded := true, remaining := 0 }, .rateLimitExceeded)
      else
        (st1, .httpError r.status)
    else
      match r.body with
      | some b => (st1, .ok b)
      | none => (st1, .malformedResponse)

/-- The rate limiter's fixed minimum spacing between requests
(`_min_request_interval = 1.0`). -/
def min_request_interval : ℚ := 1

/-- Embedding of `_wait_for_rate_limit`: given the recorded time of the
last request and the clock reading `now` taken on entry, returns the
clock value once the conditional `time.sleep` returns (a sleep is
modelled as advancing the clock by exactly the requested amount; a real
sleep can only take longer, which the theorems accommodate by using
this value as a lower bound on the subsequently recorded start time). -/
def wait_for_rate_limit (last now : ℚ) : ℚ :=
  if now - last < min_request_interval then
    now + (min_request_interval - (now - last))
  else
    now

/-- One page of a paginated response as the loop body reads it: the
extracted item array (`data.get(data_key, [])`) and the declared
`pagination.pages` (`none` when the pagination object or its `pages`
field is missing). -/
structure PageResp (α : Type) where
  items : List α
  pages : Option Nat

/-- The shared pagination loop of `_paginated_fetch` and
`get_user_list_items`, with explicit fuel standing for the number of
loop iterations still permitted (`none` = the loop would still be
running).  `fetch p` is the outcome of `_make_request` for page `p`
(`none` models a falsy body); `f` is the per-item extraction applied
before accumulating. -/
def page_walk {α β : Type} (f : α → β) (fetch : Nat → Option (PageResp α)) :
    Nat → Nat → List β → Option (List β)
  | 0, _, _ => none
  | fuel + 1, page, acc =>
    match fetch page with
    | none => some acc
    | some resp =>
      match resp.items with
      | [] => some acc
      | i :: is =>
        let acc2 := acc ++ (i :: is).map f
        if resp.pages.getD 1 ≤ page then some acc2
        else page_walk f fetch fuel (page + 1) acc2

/-- The pages beyond `N` carry no data: every response from page `N`
on is either falsy or has an empty item array.  This is the
finitely-many-non-empty-pages hypothesis of the termination claim. -/
def exhausted_from {α : Type} (fetch : Nat → Option (PageResp α)) (N : Nat) : Prop :=
  ∀ p, N ≤ p → ∀ resp, fetch p = some resp → resp.items = []

/-- A single artist entry inside `basic_information.artists`. -/
structure Artist where
  name : Option String
deriving DecidableEq, Repr

/-- A single label entry inside `basic_information.labels`. -/
structure LabelEntry where
  name : Option String
  catno : Option String
deriving DecidableEq, Repr

/-- A single format entry inside `basic_information.formats`. -/
structure FormatEntry where
  name : Option String
  descriptions : List String
deriving DecidableEq, Repr

/-- The `basic_information` sub-object of a release, restricted to the
fields the client reads.  `formats = none` models an absent `formats`
key (which `dict.get('formats', [{}])` replaces by a one-element list
holding an empty dictionary). -/
structure BasicInfo where
  artists : List Artist
  title : Option String
  labels : List LabelEntry
  cover_image : Option String
  formats : Option (List FormatEntry)
  year : Option Int
deriving DecidableEq, Repr

/-- The empty dictionary `{}` read as a `basic_information` object. -/
def emptyBasicInfo : BasicInfo :=
  { artists := [], title := none, labels := [], cover_image := none,
    formats := none, year := none }

/-- The empty dictionary `{}` read as a format entry. -/
def emptyFormatEntry : FormatEntry :=
  { name := none, descriptions := [] }

/-- One item of a collection/wantlist/list page; `basic_information`
may be absent (`item.get("basic_information", {})`). -/
structure Release where
  basic_information : Option BasicInfo
deriving DecidableEq, Repr

/-- Embedding of `_format_string`.  An absent `formats` key defaults to
`[{}]`, so only a present-and-empty list takes the early `return None`;
an empty-dictionary first entry still yields `None` because its `name`
is falsy. -/
def format_string (record_data : BasicInfo) : Option String :=
  let formats := record_data.formats.getD [emptyFormatEntry]
  match formats with
  | [] => none
  | first :: _ =>
    match first.name with
    | none => none
    | some n =>
      if n = "" then none
      else if first.descriptions = [] then some n
      else some (n ++ " (" ++ String.intercalate ", " first.descriptions ++ ")")

/-- The `{"title": ..., "data": {...}}` dictionary `get_random_record`
returns for the chosen release. -/
structure RandomRecord where
  title : String
  cat_no : Option String
  cover_image : Option String
  format : Option String
  label : Option String
  released : Option Int
deriving DecidableEq, Repr

/-- Normalisation of the chosen release into the returned record
(`api_client.py` lines 189-205), with every field access defaulted as
in the source. -/
def normalize_release (rel : Release) : RandomRecord :=
  let basic_info := rel.basic_information.getD emptyBasicInfo
  let artist_name :=
    match basic_info.artists with
    | [] => "Unknown Artist"
    | a :: _ => a.name.getD "Unknown Artist"
  let title := basic_info.title.getD "Unknown Title"
  { title := artist_name ++ " - " ++ title,
    cat_no :=
      match basic_info.labels with
      | [] => none
      | l :: _ => l.catno,
    cover_image := basic_info.cover_image,
    format := format_string basic_info,
    label :=
      match basic_info.labels with
      | [] => none
      | l :: _ => l.name,
    released := basic_info.year }

/-- The folder-count probe response of `get_random_record`
(`folder_data.get("count", 0)`). -/
structure FolderData where
  count : Option Nat
deriving DecidableEq, Repr

/-- One page of `/collection/folders/{id}/releases`
(`data.get("releases")`; a falsy response is the `none` of the fetch
oracle). -/
structure ReleasesPage where
  releases : List Release
deriving DecidableEq, Repr

/-- Embedding of `get_random_record`.  `probe` is the outcome of the
count request (`none` for a falsy body), `fetchPage p` the outcome of
requesting page `p` of the releases endpoint, and `r1`, `r2` the draws
of the random source: `random.randint(1, n)` is modelled as
`1 + r1 % n` and `random.choice xs` as the element at index
`r2 % xs.length`, so a fixed seed makes the choice a pure function of
the inputs.  The result carries the returned value, the total number
of requests issued, and the list of page numbers requested on the
releases endpoint. -/
def get_random_record (probe : Option FolderData)
    (fetchPage : Nat → Option ReleasesPage) (r1 r2 : Nat) :
    Option RandomRecord × Nat × List Nat :=
  match probe with
  | none => (none, 1, [])
  | some folder_data =>
    let total_items := folder_data.count.getD 0
    if total_items = 0 then (none, 1, [])
    else
      let per_page := 100
      let total_pages := (total_items + per_page - 1) / per_page
      let random_page := 1 + r1 % total_pages
      match fetchPage random_page with
      | none => (none, 2, [random_page])
      | some data =>
        match data.releases with
        | [] => (none, 2, [random_page])
        | x :: xs =>
          let rel := (x :: xs).get
            ⟨r2 % (xs.length + 1), Nat.mod_lt r2 (Nat.succ_pos xs.length)⟩
          (some (normalize_release rel), 2, [random_page])

/-- A value handed to `_parse_currency`: the code accepts both numeric
values and strings.  Numbers are modelled as rationals (Python floats
and ints under exact decimal arithmetic). -/
inductive PyVal
  | num (q : ℚ)
  | str (s : String)
deriving DecidableEq, Repr

/-- Python truthiness of a `PyVal` (`if not value`). -/
def pyTruthy : PyVal → Bool
  | .num q => q != 0
  | .str s => s != ""

/-- The character filter of `_parse_currency`: keep digits, `.` and
`-` (`c.isdigit() or c in '.-'`). -/
def keepNumericChar (c : Char) : Bool :=
  c.isDigit || c = '.' || c = '-'

/-- `''.join(c for c in str(value) if c.isdigit() or c in '.-')`. -/
def stripNonNumeric (s : String) : String :=
  ⟨s.data.filter keepNumericChar⟩

/-- Model of Python `float(s)` on strings drawn from the stripped
alphabet (digits, `.`, `-`): an optional single leading minus sign,
then digits with at most one decimal point and at least one digit.
Anything else (misplaced signs, repeated dots, no digits) raises,
modelled as `none`.  Exponents, infinities and whitespace cannot occur
because the corresponding characters are filtered out beforehand. -/
def parse_py_float (s : String) : Option ℚ :=
  let core : List Char → Option ℚ := fun cs =>
    let intPart := cs.takeWhile Char.isDigit
    let rest := cs.drop intPart.length
    match rest with
    | [] => if intPart = [] then none else some (natFromDigits intPart : ℚ)
    | '.' :: frac =>
      if frac.all Char.isDigit ∧ (intPart ≠ [] ∨ frac ≠ []) then
        some (mkRat (natFromDigits intPart * 10 ^ frac.length + natFromDigits frac)
          (10 ^ frac.length))
      else none
    | _ => none
  match s.data with
  | '-' :: rest => (core rest).map (fun q => -q)
  | cs => core cs

/-- Embedding of `_parse_currency`: falsy input yields `0.0`, numeric
input passes through `float(...)` unchanged, and a string is stripped
to its numeric characters and parsed, any failure yielding `0.0`. -/
def parse_currency (value : PyVal) : ℚ :=
  if pyTruthy value = false then 0
  else
    match value with
    | .num q => q
    | .str s =>
      let numeric_chars := stripNonNumeric s
      if numeric_chars = "" then 0
      else (parse_py_float numeric_chars).getD 0

/-- One folder entry, restricted to the four fields `get_folders`
copies. -/
structure FolderEntry where
  id : Option Int
  count : Option Int
  name : Option String
  resource_url : Option String
deriving DecidableEq, Repr

/-- The body of the folder-listing response: `data.get("folders")` is
`none` when the key is absent or null. -/
structure FoldersData where
  folders : Option (List FolderEntry)
deriving DecidableEq, Repr

/-- The dictionary `get_folders` returns on success. -/
structure FoldersResult where
  count : Nat
  folders : List FolderEntry
deriving DecidableEq, Repr

/-- Embedding of `get_folders`: `data` is the outcome of
`_make_request` (`none` for a falsy body); the guard
`if data and data.get("folders")` sends an absent, null or empty
folder list to `None`. -/
def get_folders (data : Option FoldersData) : Option FoldersResult :=
  match data with
  | none => none
  | some d =>
    match d.folders with
    | none => none
    | some [] => none
    | some (f :: fs) =>
      some { count := (f :: fs).length,
             folders := (f :: fs).map (fun folder =>
               { id := folder.id, count := folder.count, name := folder.name,
                 resource_url := folder.resource_url }) }

/-- One list entry, restricted to the four fields `get_lists` copies. -/
structure ListEntry where
  name : Option String
  id : Option Int
  uri : Option String
  public : Option Bool
deriving DecidableEq, Repr

/-- The body of the list-listing response: `data.get("lists")` is
`none` when the key is absent or null. -/
structure ListsData where
  lists : Option (List ListEntry)
deriving DecidableEq, Repr

/-- The dictionary `get_lists` returns on success. -/
structure ListsResult where
  count : Nat
  lists : List ListEntry
deriving DecidableEq, Repr

/-- Embedding of `get_lists`, with the same guard shape as
`get_folders`. -/
def get_lists (data : Option ListsData) : Option ListsResult :=
  match data with
  | none => none
  | some d =>
    match d.lists with
    | none => none
    | some [] => none
    | some (l :: ls) =>
      some { count := (l :: ls).length,
             lists := (l :: ls).map (fun list_item =>
               { name := list_item.name, id := list_item.id, uri := list_item.uri,
                 public := list_item.public }) }

/-- Embedding of `_paginated_fetch` (used by `get_full_collection` and
`get_full_wantlist`): the shared loop started at page 1 with an empty
accumulator, extracting `item.get("basic_information", {})` from each
item.  `fuel` bounds the number of loop iterations; the termination
theorem shows the result is independent of it once large enough. -/
def paginated_fetch (fetch : Nat → Option (PageResp Release)) (fuel : Nat) :
    Option (List BasicInfo) :=
  page_walk (fun item => item.basic_information.getD emptyBasicInfo) fetch fuel 1 []

/-- Embedding of `get_user_list_items`: the same loop, accumulating the
raw items without extraction. -/
def get_user_list_items (fetch : Nat → Option (PageResp Release)) (fuel : Nat) :
    Option (List Release) :=
  page_walk id fetch fuel 1 []

/-- A concrete one-page response sequence that advertises ten pages but
has data only on page 1, used to witness the termination theorem. -/
def fetch_one_page : Nat → Option (PageResp Release) :=
  fun p => if p = 1 then some ⟨[⟨none⟩], some 10⟩ else none

/-- A concrete releases endpoint with two items on page 3 and nothing
elsewhere, used to witness the random-sampling theorem. -/
def fetch_page_three : Nat → Option ReleasesPage :=
  fun p =>
    if p = 3 then
      some ⟨[⟨none⟩, ⟨some { emptyBasicInfo with title := some "T" }⟩]⟩
    else none

/-! ## Theorems -/

/-- Raising the fuel cannot change an already-delivered result of the
pagination loop. -/
theorem page_walk_mono {α β : Type} (f : α → β) (fetch : Nat → Option (PageResp α)) :
    ∀ (fuel fuel2 page : Nat) (acc r : List β), fuel ≤ fuel2 →
      page_walk f fetch fuel page acc = some r →
      page_walk f fetch fuel2 page acc = some r := by
  intro fuel
  induction fuel with
  | zero =>
    intro fuel2 page acc r _ h
    simp [page_walk] at h
  | succ n ih =>
    intro fuel2 page acc r hle h
    match fuel2, hle with
    | m + 1, hle =>
      have hnm : n ≤ m := Nat.succ_le_succ_iff.mp hle
      simp only [page_walk] at h ⊢
      match hf : fetch page with
      | none => simpa [hf] using h
      | some resp =>
        simp only [hf] at h ⊢
        match hi : resp.items with
        | [] => simpa [hi] using h
        | i :: is =>
          simp only [hi] at h ⊢
          by_cases hp : resp.pages.getD 1 ≤ page
          · simpa [hp] using h
          · rw [if_neg hp] at h ⊢
            exact ih m (page + 1) _ r hnm h

/-- With all pages from `N` on empty, `N - page + 1` iterations of fuel
suffice for the loop to stop on its own. -/
theorem page_walk_halts {α β : Type} (f : α → β) (fetch : Nat → Option (PageResp α))
    (N : Nat) (hN : exhausted_from fetch N) :
    ∀ (fuel0 page : Nat) (acc : List β), N ≤ page + fuel0 →
      (page_walk f fetch (fuel0 + 1) page acc).isSome := by
  intro fuel0
  induction fuel0 with
  | zero =>
    intro page acc hle
    simp only [page_walk]
    match hf : fetch page with
    | none => simp
    | some resp =>
      have : resp.items = [] := hN page (by omega) resp hf
      simp [this]
  | succ n ih =>
    intro page acc hle
    simp only [page_walk]
    match hf : fetch page with
    | none => simp
    | some resp =>
      simp only
      match hi : resp.items with
      | [] => simp
      | i :: is =>
        simp only
        by_cases hp : resp.pages.getD 1 ≤ page
        · rw [if_pos hp]; simp
        · rw [if_neg hp]
          exact ih (page + 1) _ (by omega)

/-- Claim C2: when only finitely many pages carry a non-empty item
array — in particular even when every page over-reports
`pagination.pages` — the pagination loops of `_paginated_fetch` and
`get_user_list_items` terminate: from fuel `N` on (with pages `N` and
beyond empty or absent) the result is a fixed `some` value, i.e. the
loop halts at a stop condition (absent response, empty items, or
current page at least the declared `pages`, defaulting to 1) and
issues no further requests. -/
theorem paginated_fetch_terminates
    (fetch1 fetch2 : Nat → Option (PageResp Release)) (N : Nat) (hN : 1 ≤ N)
    (h1 : exhausted_from fetch1 N) (h2 : exhausted_from fetch2 N) :
    ∃ r1 r2, ∀ fuel, N ≤ fuel →
      paginated_fetch fetch1 fuel = some r1 ∧
      get_user_list_items fetch2 fuel = some r2 := by
  have key : ∀ (β : Type) (f : Release → β) (fetch : Nat → Option (PageResp Release)),
      exhausted_from fetch N →
      ∃ r, ∀ fuel, N ≤ fuel → page_walk f fetch fuel 1 [] = some r := by
    intro β f fetch hf
    have hsome := page_walk_halts f fetch N hf (N - 1) 1 [] (by omega)
    rw [show N - 1 + 1 = N by omega] at hsome
    obtain ⟨r, hr⟩ := Option.isSome_iff_exists.mp hsome
    exact ⟨r, fun fuel hfuel => page_walk_mono f fetch N fuel 1 [] r hfuel hr⟩
  obtain ⟨r1, hr1⟩ := key _ (fun item => item.basic_information.getD emptyBasicInfo)
    fetch1 h1
  obtain ⟨r2, hr2⟩ := key _ id fetch2 h2
  exact ⟨r1, r2, fun fuel hfuel => ⟨hr1 fuel hfuel, hr2 fuel hfuel⟩⟩

/-- Witness for C2: a sequence with data only on page 1 that always
advertises ten pages; both loops stabilise from fuel 2 on. -/
theorem paginated_fetch_terminates_witness :
    ∃ r1 r2, ∀ fuel, 2 ≤ fuel →
      paginated_fetch fetch_one_page fuel = some r1 ∧
      get_user_list_items fetch_one_page fuel = some r2 := by
  have hex : exhausted_from fetch_one_page 2 := by
    intro p hp resp hresp
    rw [fetch_one_page, if_neg (by omega)] at hresp
    cases hresp
  exact paginated_fetch_terminates fetch_one_page fetch_one_page 2 (by omega) hex hex

/-- Claim C8: `_parse_currency` sends `"$1,234.56"` to `1234.56`, `""`
to `0.0` and `"-12.3"` to `-12.3`, passes numeric input through
unchanged, and on every string strips every character that is not a
digit, `.` or `-` and then parses, an unparsable or empty result
yielding `0.0` instead of an error. -/
theorem parse_currency_spec :
    parse_currency (.str "$1,234.56") = 1234.56 ∧
    parse_currency (.str "") = 0 ∧
    parse_currency (.str "-12.3") = -12.3 ∧
    (∀ q : ℚ, parse_currency (.num q) = q) ∧
    (∀ s : String,
      parse_currency (.str s) = (parse_py_float (stripNonNumeric s)).getD 0) := by
  have h1 : parse_currency (.str "$1,234.56") = mkRat 123456 100 := by decide
  have h3 : parse_currency (.str "-12.3") = -(mkRat 123 10) := by decide
  refine ⟨?_, by decide, ?_, ?_, ?_⟩
  · rw [h1, Rat.mkRat_eq_divInt, Rat.divInt_eq_div]; norm_num
  · rw [h3, Rat.mkRat_eq_divInt, Rat.divInt_eq_div]; norm_num
  · intro q
    by_cases hq : q = 0 <;> simp [parse_currency, pyTruthy, hq]
  · intro s
    by_cases hs : s = ""
    · subst hs; decide
    · simp only [parse_currency, pyTruthy, bne_iff_ne, ne_eq, hs, not_false_eq_true,
        if_false, decide_not]
      by_cases h2 : stripNonNumeric s = ""
      · rw [h2]; simp [parse_py_float, hs]
      · simp [h2, hs]

/-- Claim C9: `_format_string` renders a first format entry with a name
and descriptions as `"name (d1, d2)"`, a name-only first entry as the
bare name, and an empty or absent formats list as `None` (not `""`);
and for every input the result depends only on the first format
entry. -/
theorem format_string_spec :
    format_string { emptyBasicInfo with
      formats := some [⟨some "Vinyl", ["LP", "Album"]⟩] } = some "Vinyl (LP, Album)" ∧
    format_string { emptyBasicInfo with
      formats := some [⟨some "Vinyl", []⟩] } = some "Vinyl" ∧
    format_string { emptyBasicInfo with formats := some [] } = none ∧
    format_string emptyBasicInfo = none ∧
    (∀ (bi : BasicInfo) (f : FormatEntry) (rest : List FormatEntry),
      format_string { bi with formats := some (f :: rest) } =
        format_string { bi with formats := some [f] }) := by
  refine ⟨by decide, by decide, by decide, by decide, ?_⟩
  intro bi f rest
  rfl

/-- Claim C10: a response whose `folders` field is absent, null or the
empty list makes `get_folders` return `None`, indistinguishable from a
missing payload, and every non-`None` result has `count` equal to the
length of its folder list and strictly positive, so the shape
`(count 0, folders [])` is never produced; likewise for `get_lists`. -/
theorem get_folders_get_lists_empty :
    (∀ d : FoldersData, d.folders = none ∨ d.folders = some [] →
      get_folders (some d) = none) ∧
    get_folders none = none ∧
    (∀ (data : Option FoldersData) (res : FoldersResult),
      get_folders data = some res →
        res.count = res.folders.length ∧ 0 < res.count) ∧
    (∀ d : ListsData, d.lists = none ∨ d.lists = some [] →
      get_lists (some d) = none) ∧
    get_lists none = none ∧
    (∀ (data : Option ListsData) (res : ListsResult),
      get_lists data = some res →
        res.count = res.lists.length ∧ 0 < res.count) := by
  refine ⟨?_, rfl, ?_, ?_, rfl, ?_⟩
  · intro d h
    rcases h with h | h <;> simp [get_folders, h]
  · intro data res h
    match data with
    | none => simp [get_folders] at h
    | some d =>
      match hd : d.folders with
      | none => simp [get_folders, hd] at h
      | some [] => simp [get_folders, hd] at h
      | some (f :: fs) =>
        simp only [get_folders, hd] at h
        cases h
        simp
  · intro d h
    rcases h with h | h <;> simp [get_lists, h]
  · intro data res h
    match data with
    | none => simp [get_lists] at h
    | some d =>
      match hd : d.lists with
      | none => simp [get_lists, hd] at h
      | some [] => simp [get_lists, hd] at h
      | some (l :: ls) =>
        simp only [get_lists, hd] at h
        cases h
        simp

/-- Witness for C10 at a concrete response carrying a null folder/list
field. -/
theorem get_folders_get_lists_empty_witness :
    get_folders (some ⟨none⟩) = none ∧ get_lists (some ⟨none⟩) = none :=
  ⟨get_folders_get_lists_empty.1 ⟨none⟩ (Or.inl rfl),
   get_folders_get_lists_empty.2.2.2.1 ⟨none⟩ (Or.inl rfl)⟩

/-- Counterexample to claim C1 as stated: a call of
`_update_rate_limit_info` in which all three rate-limit headers are
missing does not leave the prior state unchanged — the standard
defaults are substituted, parse, and overwrite every field,
`last_updated` included. -/
theorem update_rate_limit_info_missing_headers_update :
    update_rate_limit_info ⟨100, 5, 55, true, some 10⟩ ⟨none, none, none⟩ 200 42 ≠
      ⟨100, 5, 55, true, some 10⟩ := by
  decide

/-- Claim C1 (amended): a call of `_update_rate_limit_info` in which at
least one of the three rate-limit headers is present but non-numeric
leaves the previously recorded state entirely unchanged, `last_updated`
included; a call in which headers are missing substitutes the standard
defaults (total 60, used 0, remaining 60), which parse, so the state is
overwritten and the timestamp refreshed. -/
theorem update_rate_limit_info_amended :
    (∀ (st : RateLimitState) (h : RLHeaders) (status : Int) (now : ℚ),
      ((∃ s, h.ratelimit = some s ∧ parse_py_int s = none) ∨
       (∃ s, h.ratelimit_used = some s ∧ parse_py_int s = none) ∨
       (∃ s, h.ratelimit_remaining = some s ∧ parse_py_int s = none)) →
      update_rate_limit_info st h status now = st) ∧
    (∀ (st : RateLimitState) (status : Int) (now : ℚ),
      update_rate_limit_info st ⟨none, none, none⟩ status now =
        ⟨60, 0, 60, status == 429, some now⟩) := by
  constructor
  · intro st h status now hfail
    unfold update_rate_limit_info
    rcases hfail with ⟨s, hs, hp⟩ | ⟨s, hs, hp⟩ | ⟨s, hs, hp⟩ <;>
      rw [hs] <;> simp [Option.getD, hp]
  · intro st status now
    rfl

/-- Witness for the amended C1 at a concrete garbled header. -/
theorem update_rate_limit_info_amended_witness :
    update_rate_limit_info ⟨100, 5, 55, true, some 10⟩ ⟨some "abc", none, none⟩ 200 42 =
      ⟨100, 5, 55, true, some 10⟩ :=
  update_rate_limit_info_amended.1 _ _ _ _ (Or.inl ⟨"abc", rfl, by decide⟩)

/-- Claim C6: when the folder's count probe reports a zero (or missing)
count, `get_random_record` returns `None` after exactly one request and
never touches the releases endpoint. -/
theorem get_random_record_zero_count (fd : FolderData)
    (fetchPage : Nat → Option ReleasesPage) (r1 r2 : Nat)
    (h : fd.count.getD 0 = 0) :
    get_random_record (some fd) fetchPage r1 r2 = (none, 1, []) := by
  unfold get_random_record
  simp [h]

/-- Witness for C6 at a folder whose count field is absent. -/
theorem get_random_record_zero_count_witness :
    get_random_record (some ⟨none⟩) (fun _ => none) 0 0 = (none, 1, []) :=
  get_random_record_zero_count ⟨none⟩ (fun _ => none) 0 0 rfl

/-- Claim C3: a 429 response makes `_make_request` record
`exceeded = true` and `remaining = 0` before the rate-limit error
propagates, and a subsequent successful (2xx) response with parseable
headers clears `exceeded` back to `false`. -/
theorem make_request_429_then_success (α : Type) (st : RateLimitState)
    (r1 r2 : HttpResponse α) (t1 t2 : ℚ)
    (h429 : r1.status = 429)
    (h2xx : 200 ≤ r2.status ∧ r2.status < 300)
    (hp : headers_parseable r2.headers) :
    ((make_request st (some r1) t1).1.exceeded = true ∧
     (make_request st (some r1) t1).1.remaining = 0 ∧
     (make_request st (some r1) t1).2 = RequestResult.rateLimitExceeded) ∧
    (make_request (make_request st (some r1) t1).1 (some r2) t2).1.exceeded = false := by
  obtain ⟨hlo, hhi⟩ := h2xx
  constructor
  · simp [make_request, h429]
  · obtain ⟨hp1, hp2, hp3⟩ := hp
    obtain ⟨t, ht⟩ := Option.isSome_iff_exists.mp hp1
    obtain ⟨u, hu⟩ := Option.isSome_iff_exists.mp hp2
    obtain ⟨r, hr⟩ := Option.isSome_iff_exists.mp hp3
    have hne : ¬(400 ≤ r2.status ∧ r2.status < 600) := by omega
    have hupd : ∀ s : RateLimitState,
        (update_rate_limit_info s r2.headers r2.status t2).exceeded = false := by
      intro s
      unfold update_rate_limit_info
      rw [ht, hu, hr]
      simp only [beq_eq_false_iff_ne, ne_eq]
      omega
    simp only [make_request, if_neg hne]
    cases hb : r2.body <;> simp only [hb] <;> exact hupd _

/-- Witness for C3: a concrete 429 followed by a concrete 200 with
numeric headers. -/
theorem make_request_429_then_success_witness :
    ((make_request (α := Unit) initRateLimitState
        (some ⟨429, ⟨some "60", some "60", some "0"⟩, none⟩) 0).1.exceeded = true ∧
     (make_request (α := Unit) initRateLimitState
        (some ⟨429, ⟨some "60", some "60", some "0"⟩, none⟩) 0).1.remaining = 0 ∧
     (make_request (α := Unit) initRateLimitState
        (some ⟨429, ⟨some "60", some "60", some "0"⟩, none⟩) 0).2 =
       RequestResult.rateLimitExceeded) ∧
    (make_request (make_request (α := Unit) initRateLimitState
        (some ⟨429, ⟨some "60", some "60", some "0"⟩, none⟩) 0).1
      (some ⟨200, ⟨some "60", some "1", some "59"⟩, some ()⟩) 1).1.exceeded = false :=
  make_request_429_then_success Unit initRateLimitState
    ⟨429, ⟨some "60", some "60", some "0"⟩, none⟩
    ⟨200, ⟨some "60", some "1", some "59"⟩, some ()⟩ 0 1 rfl
    (by constructor <;> norm_num) (by constructor <;> [decide; constructor <;> decide])

/-- Counterexample to claim C4 as stated: after a successful request
whose headers advertise total 60, used 10 but remaining 55, the
recorded state violates `remaining = total - used` — the three fields
are taken independently from the headers, never reconciled. -/
theorem make_request_remaining_not_difference :
    (make_request (α := Unit) initRateLimitState
        (some ⟨200, ⟨some "60", some "10", some "55"⟩, some ()⟩) 0).1.remaining ≠
      (make_request (α := Unit) initRateLimitState
          (some ⟨200, ⟨some "60", some "10", some "55"⟩, some ()⟩) 0).1.total -
        (make_request (α := Unit) initRateLimitState
            (some ⟨200, ⟨some "60", some "10", some "55"⟩, some ()⟩) 0).1.used := by
  decide

/-- Claim C4 (amended): every completed `_make_request` call preserves
the invariant `exceeded = true → remaining = 0` (which therefore holds
in every reachable state, the initial state satisfying it); the
relation `remaining = total - used` is not maintained, since each field
is copied independently from its header. -/
theorem make_request_preserves_exceeded_inv (α : Type) (st : RateLimitState)
    (resp : Option (HttpResponse α)) (now : ℚ)
    (hst : st.exceeded = true → st.remaining = 0) :
    (make_request st resp now).1.exceeded = true →
      (make_request st resp now).1.remaining = 0 := by
  have hupd : ∀ (h : RLHeaders) (status : Int),
      update_rate_limit_info st h status now = st ∨
        (update_rate_limit_info st h status now).exceeded = (status == 429) := by
    intro h status
    unfold update_rate_limit_info
    rcases parse_py_int (h.ratelimit.getD "60") with _ | t
    · exact Or.inl rfl
    rcases parse_py_int (h.ratelimit_used.getD "0") with _ | u
    · exact Or.inl rfl
    rcases parse_py_int (h.ratelimit_remaining.getD "60") with _ | r
    · exact Or.inl rfl
    exact Or.inr rfl
  match resp with
  | none => exact hst
  | some r =>
    by_cases h45 : 400 ≤ r.status ∧ r.status < 600
    · by_cases h429 : r.status = 429
      · simp only [make_request, if_pos h45, if_pos h429]
        intro _
        trivial
      · simp only [make_request, if_pos h45, if_neg h429]
        rcases hupd r.headers r.status with he | he
        · rw [he]; exact hst
        · intro hx
          rw [he] at hx
          simp only [beq_iff_eq] at hx
          exact absurd hx h429
    · have h429 : r.status ≠ 429 := by
        intro hc
        exact h45 (by rw [hc]; constructor <;> norm_num)
      simp only [make_request, if_neg h45]
      rcases hupd r.headers r.status with he | he <;> cases hb : r.body <;>
        simp only [hb]
      · rw [he]; exact hst
      · rw [he]; exact hst
      · intro hx
        rw [he] at hx
        simp only [beq_iff_eq] at hx
        exact absurd hx h429
      · intro hx
        rw [he] at hx
        simp only [beq_iff_eq] at hx
        exact absurd hx h429

/-- Witness for the amended C4 at a concrete 429 response from the
initial state. -/
theorem make_request_preserves_exceeded_inv_witness :
    (make_request (α := Unit) initRateLimitState
        (some ⟨429, ⟨none, none, none⟩, none⟩) 0).1.remaining = 0 :=
  make_request_preserves_exceeded_inv Unit initRateLimitState
    (some ⟨429, ⟨none, none, none⟩, none⟩) 0 (by decide) (by decide)

/-- Claim C5: for back-to-back requests from one client, consecutive
recorded start times are at least `_min_request_interval = 1.0` apart,
independently of server feedback.  `starts i` is the value stored into
`_last_request_time` by request `i`, `clock i` the `time.time()`
reading taken inside the following call's `_wait_for_rate_limit`; the
hypothesis says each recorded start is no earlier than the moment that
call's conditional sleep finished, which is how the monotone wall
clock behaves. -/
theorem wait_spacing (starts clock : Nat → ℚ)
    (hstep : ∀ i, wait_for_rate_limit (starts i) (clock i) ≤ starts (i + 1)) :
    ∀ i, starts i + min_request_interval ≤ starts (i + 1) := by
  have key : ∀ last now : ℚ, last + min_request_interval ≤ wait_for_rate_limit last now := by
    intro last now
    unfold wait_for_rate_limit
    split_ifs with h
    · linarith
    · linarith [not_lt.mp h]
  intro i
  exact le_trans (key (starts i) (clock i)) (hstep i)

/-- Witness for C5: a trace whose requests start exactly one unit
apart. -/
theorem wait_spacing_witness :
    ((0 : Nat) : ℚ) + min_request_interval ≤ ((1 : Nat) : ℚ) := by
  have h := wait_spacing (fun i => (i : ℚ)) (fun i => (i : ℚ) + 1)
    (by
      intro i
      unfold wait_for_rate_limit min_request_interval
      rw [if_neg (by push_cast; linarith)]
      push_cast
      linarith)
    0
  simpa using h

/-- Reduction of `get_random_record` on a positive reported count: the
call draws page `1 + r1 % ceil(count/100)`, issues exactly the probe
and that one page request, and picks the item at index
`r2 % pageLength` of the fetched page. -/
theorem get_random_record_pos_eq (fd : FolderData)
    (fetchPage : Nat → Option ReleasesPage) (r1 r2 : Nat)
    (h0 : fd.count.getD 0 ≠ 0) :
    get_random_record (some fd) fetchPage r1 r2 =
      match fetchPage (1 + r1 % ((fd.count.getD 0 + 99) / 100)) with
      | none => (none, 2, [1 + r1 % ((fd.count.getD 0 + 99) / 100)])
      | some data =>
        match data.releases with
        | [] => (none, 2, [1 + r1 % ((fd.count.getD 0 + 99) / 100)])
        | x :: xs =>
          (some (normalize_release ((x :: xs).get
              ⟨r2 % (xs.length + 1), Nat.mod_lt r2 (Nat.succ_pos xs.length)⟩)),
            2, [1 + r1 % ((fd.count.getD 0 + 99) / 100)]) := by
  have harith : fd.count.getD 0 + 100 - 1 = fd.count.getD 0 + 99 := by omega
  simp only [get_random_record, if_neg h0, harith]

/-- Claim C7: for a folder whose probe reports a positive count,
`get_random_record` computes `totalPages = ceil(count/100)`, draws the
page `1 + r1 % totalPages` — a uniform draw over `[1, totalPages]`
under the seeded model of `random.randint`, and a pure function of the
seed, so reproducible — fetches exactly that one page (two requests in
total), and returns the normalisation of an element of that page's
`releases` array (the one at index `r2 % length`). -/
theorem get_random_record_positive_count (fd : FolderData)
    (fetchPage : Nat → Option ReleasesPage) (r1 r2 : Nat)
    (hc : 0 < fd.count.getD 0) :
    (get_random_record (some fd) fetchPage r1 r2).2.1 = 2 ∧
    (get_random_record (some fd) fetchPage r1 r2).2.2 =
      [1 + r1 % ((fd.count.getD 0 + 99) / 100)] ∧
    1 ≤ 1 + r1 % ((fd.count.getD 0 + 99) / 100) ∧
    1 + r1 % ((fd.count.getD 0 + 99) / 100) ≤ (fd.count.getD 0 + 99) / 100 ∧
    (∀ page, fetchPage (1 + r1 % ((fd.count.getD 0 + 99) / 100)) = some page →
      page.releases = [] →
      (get_random_record (some fd) fetchPage r1 r2).1 = none) ∧
    (∀ page x xs, fetchPage (1 + r1 % ((fd.count.getD 0 + 99) / 100)) = some page →
      page.releases = x :: xs →
      ∃ rel, rel ∈ page.releases ∧
        rel = (x :: xs).get
          ⟨r2 % (xs.length + 1), Nat.mod_lt r2 (Nat.succ_pos xs.length)⟩ ∧
        (get_random_record (some fd) fetchPage r1 r2).1 =
          some (normalize_release rel)) := by
  have h0 : fd.count.getD 0 ≠ 0 := by omega
  have heq := get_random_record_pos_eq fd fetchPage r1 r2 h0
  have htp : 0 < (fd.count.getD 0 + 99) / 100 := by omega
  refine ⟨?_, ?_, ?_, ?_, ?_, ?_⟩
  · rw [heq]
    rcases hfp : fetchPage (1 + r1 % ((fd.count.getD 0 + 99) / 100)) with _ | data
    · simp
    · rcases hrel : data.releases with _ | ⟨x, xs⟩ <;> simp [hrel]
  · rw [heq]
    rcases hfp : fetchPage (1 + r1 % ((fd.count.getD 0 + 99) / 100)) with _ | data
    · simp
    · rcases hrel : data.releases with _ | ⟨x, xs⟩ <;> simp [hrel]
  · omega
  · have := Nat.mod_lt r1 htp
    omega
  · intro page hfp hrel
    rw [heq, hfp]
    simp [hrel]
  · intro page x xs hfp hrel
    refine ⟨(x :: xs).get
      ⟨r2 % (xs.length + 1), Nat.mod_lt r2 (Nat.succ_pos xs.length)⟩, ?_, rfl, ?_⟩
    · rw [hrel]
      exact List.get_mem _ _ _
    · rw [heq, hfp]
      simp [hrel]

/-- Witness for C7: a folder of 250 items (three pages), seed draws
landing on page 3 and item index 1. -/
theorem get_random_record_positive_count_witness :
    (get_random_record (some ⟨some 250⟩) fetch_page_three 5 7).2.1 = 2 ∧
    (get_random_record (some ⟨some 250⟩) fetch_page_three 5 7).2.2 = [3] ∧
    (1 : Nat) ≤ 3 ∧ (3 : Nat) ≤ 3 ∧
    (∀ page, fetch_page_three 3 = some page → page.releases = [] →
      (get_random_record (some ⟨some 250⟩) fetch_page_three 5 7).1 = none) ∧
    (∀ page x xs, fetch_page_three 3 = some page → page.releases = x :: xs →
      ∃ rel, rel ∈ page.releases ∧
        rel = (x :: xs).get
          ⟨7 % (xs.length + 1), Nat.mod_lt 7 (Nat.succ_pos xs.length)⟩ ∧
        (get_random_record (some ⟨some 250⟩) fetch_page_three 5 7).1 =
          some (normalize_release rel)) :=
  get_random_record_positive_count ⟨some 250⟩ fetch_page_three 5 7 (by decide)

end DiscogsSync
